import Mathlib

/-!
Shallow embedding of the `errors` package of the `be-base` repository
(`src/errors/errors.go`) together with proofs of the specification claims.

Modelling conventions:
* the Go `error` interface value is `GoErr`: `nil`, a `*Error` value, or some
  other non-nil error carrying only its `Error()` text.
* `int32` is modelled as `Int`; where the 32-bit range matters (JSON number
  decoding into the `Code` field) the range check is explicit.
* `fmt.Sprintf("%s", a...)` is modelled for lists of string arguments
  (`sprintfS`), including the `%!s(MISSING)` / `%!(EXTRA ...)` behaviour of
  the `fmt` package for too few / too many operands.
* `encoding/json` is modelled by an explicit encoder (`encodeError`,
  mirroring `json.Marshal` of the `Error` struct, including its HTML escaping
  of `<`, `>`, `&` and the ` `/` ` escapes) and an explicit decoder
  (`decode`, mirroring `json.Unmarshal` into `*Error`: full-input syntax
  validation, case-insensitive field matching, unknown fields ignored, `null`
  leaving fields untouched, and type mismatches being skipped while the
  remaining fields are still populated and an error is reported).
* the `StatusText` table of `net/http` is reproduced in `statusText`.
-/

namespace GoErrors

/-- Error mirrors the Go struct `Error` with fields `Id`, `Code` (an `int32`),
`Detail` and `Status`, JSON keys `id`, `code`, `detail`, `status`. -/
structure Error where
  Id : String
  Code : Int
  Detail : String
  Status : String
deriving DecidableEq, Repr

/-- statusText is the `net/http.StatusText` table: the reason phrase for a
status code, and `""` for unknown codes. -/
def statusText (code : Int) : String :=
  if code = 100 then "Continue"
  else if code = 101 then "Switching Protocols"
  else if code = 102 then "Processing"
  else if code = 103 then "Early Hints"
  else if code = 200 then "OK"
  else if code = 201 then "Created"
  else if code = 202 then "Accepted"
  else if code = 203 then "Non-Authoritative Information"
  else if code = 204 then "No Content"
  else if code = 205 then "Reset Content"
  else if code = 206 then "Partial Content"
  else if code = 207 then "Multi-Status"
  else if code = 208 then "Already Reported"
  else if code = 226 then "IM Used"
  else if code = 300 then "Multiple Choices"
  else if code = 301 then "Moved Permanently"
  else if code = 302 then "Found"
  else if code = 303 then "See Other"
  else if code = 304 then "Not Modified"
  else if code = 305 then "Use Proxy"
  else if code = 307 then "Temporary Redirect"
  else if code = 308 then "Permanent Redirect"
  else if code = 400 then "Bad Request"
  else if code = 401 then "Unauthorized"
  else if code = 402 then "Payment Required"
  else if code = 403 then "Forbidden"
  else if code = 404 then "Not Found"
  else if code = 405 then "Method Not Allowed"
  else if code = 406 then "Not Acceptable"
  else if code = 407 then "Proxy Authentication Required"
  else if code = 408 then "Request Timeout"
  else if code = 409 then "Conflict"
  else if code = 410 then "Gone"
  else if code = 411 then "Length Required"
  else if code = 412 then "Precondition Failed"
  else if code = 413 then "Request Entity Too Large"
  else if code = 414 then "Request URI Too Long"
  else if code = 415 then "Unsupported Media Type"
  else if code = 416 then "Requested Range Not Satisfiable"
  else if code = 417 then "Expectation Failed"
  else if code = 418 then "I\u0027m a teapot"
  else if code = 421 then "Misdirected Request"
  else if code = 422 then "Unprocessable Entity"
  else if code = 423 then "Locked"
  else if code = 424 then "Failed Dependency"
  else if code = 425 then "Too Early"
  else if code = 426 then "Upgrade Required"
  else if code = 428 then "Precondition Required"
  else if code = 429 then "Too Many Requests"
  else if code = 431 then "Request Header Fields Too Large"
  else if code = 451 then "Unavailable For Legal Reasons"
  else if code = 500 then "Internal Server Error"
  else if code = 501 then "Not Implemented"
  else if code = 502 then "Bad Gateway"
  else if code = 503 then "Service Unavailable"
  else if code = 504 then "Gateway Timeout"
  else if code = 505 then "HTTP Version Not Supported"
  else if code = 506 then "Variant Also Negotiates"
  else if code = 507 then "Insufficient Storage"
  else if code = 508 then "Loop Detected"
  else if code = 510 then "Not Extended"
  else if code = 511 then "Network Authentication Required"
  else ""

/-- digitChar renders one decimal digit. -/
def digitChar (n : Nat) : Char := Char.ofNat (48 + n)

/-- natDigitsAux renders a natural number in decimal; `fuel` only guarantees
totality and any `fuel > n` gives the exact decimal digits. -/
def natDigitsAux : Nat → Nat → List Char
  | 0, _ => []
  | fuel + 1, n =>
    if n < 10 then [digitChar n]
    else natDigitsAux fuel (n / 10) ++ [digitChar (n % 10)]

/-- natDigits is the decimal digit list of a natural number. -/
def natDigits (n : Nat) : List Char := natDigitsAux (n + 1) n

/-- intChars is the decimal rendering of an integer, as emitted for the
`code` field by `json.Marshal` (`-` sign followed by the digits). -/
def intChars (i : Int) : List Char :=
  if i < 0 then '-' :: natDigits (-i).toNat else natDigits i.toNat

/-- hexDigitChar is a lowercase hex digit, as used by the `\u00xx` escapes of
`encoding/json`. -/
def hexDigitChar (n : Nat) : Char :=
  if n < 10 then Char.ofNat (48 + n) else Char.ofNat (87 + n)

/-- uescape is a `\uXXXX` escape sequence for a code point below `0x10000`. -/
def uescape (n : Nat) : List Char :=
  ['\\', 'u', hexDigitChar (n / 4096 % 16), hexDigitChar (n / 256 % 16),
   hexDigitChar (n / 16 % 16), hexDigitChar (n % 16)]

/-- escapeChar escapes one character of a string exactly as
`json.Marshal` does (with HTML escaping on, its default): quote and
backslash, the named newline, carriage-return and tab escapes, other
control characters as `\u00xx`, the HTML-sensitive characters (less-than,
greater-than, ampersand) and U+2028/U+2029 as `\uXXXX`; everything else
is passed through. -/
def escapeChar (c : Char) : List Char :=
  if c = '"' then ['\\', '"']
  else if c = '\\' then ['\\', '\\']
  else if c = '\n' then ['\\', 'n']
  else if c = '\r' then ['\\', 'r']
  else if c = '\t' then ['\\', 't']
  else if c = '<' ∨ c = '>' ∨ c = '&' then uescape c.toNat
  else if c.toNat < 32 then uescape c.toNat
  else if c.toNat = 8232 ∨ c.toNat = 8233 then uescape c.toNat
  else [c]

/-- escChars escapes every character of a string body. -/
def escChars : List Char → List Char
  | [] => []
  | c :: cs => escapeChar c ++ escChars cs

/-- encodeChars is the exact character sequence produced by `json.Marshal`
for an `Error` value: the four fields, in struct order, under their JSON
keys, with no spaces. -/
def encodeChars (e : Error) : List Char :=
  ['\x7b', '"', 'i', 'd', '"', ':', '"'] ++ escChars e.Id.data ++
  ['"', ',', '"', 'c', 'o', 'd', 'e', '"', ':'] ++ intChars e.Code ++
  [',', '"', 'd', 'e', 't', 'a', 'i', 'l', '"', ':', '"'] ++ escChars e.Detail.data ++
  ['"', ',', '"', 's', 't', 'a', 't', 'u', 's', '"', ':', '"'] ++ escChars e.Status.data ++
  ['"', '\x7d']

/-- encodeError is the JSON text form of an `Error`. -/
def encodeError (e : Error) : String := String.mk (encodeChars e)

/-- Error.Error is the Go method `(e *Error) Error() string`: the JSON
encoding of the value (`json.Marshal` cannot fail on this struct). -/
def Error.Error (e : Error) : String := encodeError e

/-- GoErr is a Go `error` interface value as seen by this package: `nil`, a
non-nil `*Error`, or some other non-nil error identified by its `Error()`
text (the only thing the package ever uses of it). -/
inductive GoErr where
  | nil
  | e (err : Error)
  | generic (msg : String)
deriving DecidableEq, Repr

/-- errText is `err.Error()` for a non-nil `GoErr`; it is only ever applied
behind the nil guards, so the `nil` case is arbitrary. -/
def errText : GoErr → String
  | .nil => ""
  | .e err => err.Error
  | .generic msg => msg

/-- sprintfExtra is the suffix `fmt` appends when `Sprintf` has unconsumed
operands: `%!(EXTRA string=a2, string=a3, ...)` (values here are strings). -/
def sprintfExtra : List String → String
  | [] => ""
  | xs => "%!(EXTRA " ++ String.intercalate ", " (xs.map (fun s => "string=" ++ s)) ++ ")"

/-- sprintfS is the Go call `fmt.Sprintf("%s", a...)` for string operands: with no
operand the format verb reports `%!s(MISSING)`; with one operand the string
itself; extra operands are reported in an `%!(EXTRA ...)` suffix. -/
def sprintfS : List String → String
  | [] => "%!s(MISSING)"
  | x :: xs => x ++ sprintfExtra xs

/-- newError is the `Error` struct literal built by `New`: `Status` is looked
up from the code at construction time. -/
def newError (id detail : String) (code : Int) : Error :=
  { Id := id, Code := code, Detail := detail, Status := statusText code }

/-- New mirrors `New(id, detail string, code int32) error`. -/
def New (id detail : String) (code : Int) : GoErr := .e (newError id detail code)

/-- BadRequest generates a 400 error (variadic operands modelled as strings). -/
def BadRequest (a : List String) : GoErr :=
  .e { Id := "400", Code := 400, Detail := sprintfS a, Status := statusText 400 }

/-- Unauthorized generates a 401 error. -/
def Unauthorized (a : List String) : GoErr :=
  .e { Id := "401", Code := 401, Detail := sprintfS a, Status := statusText 401 }

/-- Forbidden generates a 403 error. -/
def Forbidden (a : List String) : GoErr :=
  .e { Id := "403", Code := 403, Detail := sprintfS a, Status := statusText 403 }

/-- NotFound generates a 404 error. -/
def NotFound (a : List String) : GoErr :=
  .e { Id := "404", Code := 404, Detail := sprintfS a, Status := statusText 404 }

/-- MethodNotAllowed generates a 405 error. -/
def MethodNotAllowed (a : List String) : GoErr :=
  .e { Id := "405", Code := 405, Detail := sprintfS a, Status := statusText 405 }

/-- Timeout generates a 408 error. -/
def Timeout (a : List String) : GoErr :=
  .e { Id := "408", Code := 408, Detail := sprintfS a, Status := statusText 408 }

/-- Conflict generates a 409 error. -/
def Conflict (a : List String) : GoErr :=
  .e { Id := "409", Code := 409, Detail := sprintfS a, Status := statusText 409 }

/-- InternalServerError generates a 500 error. -/
def InternalServerError (a : List String) : GoErr :=
  .e { Id := "500", Code := 500, Detail := sprintfS a, Status := statusText 500 }

/-- ServiceUnavailable generates a 503 error. -/
def ServiceUnavailable (a : List String) : GoErr :=
  .e { Id := "503", Code := 503, Detail := sprintfS a, Status := statusText 503 }

/-- GatewayTimeout generates a 504 error. -/
def GatewayTimeout (a : List String) : GoErr :=
  .e { Id := "504", Code := 504, Detail := sprintfS a, Status := statusText 504 }

/-- ErrCollateralNotFound is the domain sentinel `NotFound("collateral not found")`. -/
def ErrCollateralNotFound : GoErr := NotFound ["collateral not found"]

/-- ErrCollateralExists is the domain sentinel `Conflict("collateral already exists")`. -/
def ErrCollateralExists : GoErr := Conflict ["collateral already exists"]

/-- ErrInvalidCollateralInput is the domain sentinel `BadRequest("invalid collateral input")`. -/
def ErrInvalidCollateralInput : GoErr := BadRequest ["invalid collateral input"]

/-- ErrCollateralSyncFailed is the domain sentinel `ServiceUnavailable("collateral synchronization failed")`. -/
def ErrCollateralSyncFailed : GoErr := ServiceUnavailable ["collateral synchronization failed"]

/-- ErrDatabaseOperation is the domain sentinel `InternalServerError("database operation failed")`. -/
def ErrDatabaseOperation : GoErr := InternalServerError ["database operation failed"]

/-- ErrExternalService is the domain sentinel `ServiceUnavailable("external service unavailable")`. -/
def ErrExternalService : GoErr := ServiceUnavailable ["external service unavailable"]

/-- Is mirrors `Is(err, target error) bool`: false if either side is nil;
identity comparison when both are `*Error`; otherwise a comparison of the
two `Error()` texts. -/
def Is (err target : GoErr) : Bool :=
  match err, target with
  | .nil, _ => false
  | _, .nil => false
  | .e a, .e b => a.Id == b.Id
  | a, b => errText a == errText b

/-- Wrap mirrors `Wrap(originalError error, message string) error`. The Go
code builds a fresh struct and never assigns to the fields of the original, which
this pure function reflects. -/
def Wrap (originalError : GoErr) (message : String) : GoErr :=
  match originalError with
  | .nil => New "WRAPPED_ERROR" message 500
  | .e e => .e { Id := e.Id, Code := e.Code,
                 Detail := message ++ ": " ++ e.Detail, Status := e.Status }
  | .generic m => New "WRAPPED_ERROR" (message ++ ": " ++ m) 500

/-- WithDetail mirrors `WithDetail(originalError error, detail string) error`;
like `Wrap` it copies the original and only replaces `Detail`. -/
def WithDetail (originalError : GoErr) (detail : String) : GoErr :=
  match originalError with
  | .nil => New "DETAILED_ERROR" detail 500
  | .e e => .e { Id := e.Id, Code := e.Code, Detail := detail, Status := e.Status }
  | .generic _ => New "DETAILED_ERROR" detail 500

/-- GetHTTPStatus mirrors `GetHTTPStatus(err error) int`. -/
def GetHTTPStatus (err : GoErr) : Int :=
  match err with
  | .e e => e.Code
  | _ => 500

/-- GetErrorID mirrors `GetErrorID(err error) string`. -/
def GetErrorID (err : GoErr) : String :=
  match err with
  | .e e => e.Id
  | _ => "UNKNOWN_ERROR"

/-- IsNotFound mirrors `IsNotFound(err error) bool`. -/
def IsNotFound (err : GoErr) : Bool :=
  Is err ErrCollateralNotFound || Is err (NotFound [""])

/-- IsAlreadyExists mirrors `IsAlreadyExists(err error) bool`. -/
def IsAlreadyExists (err : GoErr) : Bool :=
  Is err ErrCollateralExists || Is err (Conflict [""])

/-- IsBadRequest mirrors `IsBadRequest(err error) bool`: a `*Error` with a
code in `[400, 500)`. -/
def IsBadRequest (err : GoErr) : Bool :=
  match err with
  | .e e => 400 ≤ e.Code && e.Code < 500
  | _ => false

/-- IsServerError mirrors `IsServerError(err error) bool`: a `*Error` with a
code in `[500, 600)`. -/
def IsServerError (err : GoErr) : Bool :=
  match err with
  | .e e => 500 ≤ e.Code && e.Code < 600
  | _ => false

/-- ErrorBuilder mirrors the Go builder struct (fields `id`, `code`,
`detail`). The Go methods mutate the builder in place and return it; the
functional updates below model the same chained call sequences. `WithDetailf`
(a general `fmt.Sprintf` over an arbitrary format) is outside this embedding
and not needed by any claim. -/
structure ErrorBuilder where
  id : String
  code : Int
  detail : String
deriving DecidableEq, Repr

/-- NewBuilder mirrors `NewBuilder()`: id `CUSTOM_ERROR`, code 500, empty detail. -/
def NewBuilder : ErrorBuilder := { id := "CUSTOM_ERROR", code := 500, detail := "" }

/-- ErrorBuilder.WithID sets the error ID. -/
def ErrorBuilder.WithID (b : ErrorBuilder) (id : String) : ErrorBuilder :=
  { b with id := id }

/-- ErrorBuilder.WithCode sets the HTTP status code. -/
def ErrorBuilder.WithCode (b : ErrorBuilder) (code : Int) : ErrorBuilder :=
  { b with code := code }

/-- ErrorBuilder.WithDetail sets the error detail message. -/
def ErrorBuilder.WithDetail (b : ErrorBuilder) (detail : String) : ErrorBuilder :=
  { b with detail := detail }

/-- ErrorBuilder.Build mirrors `Build()`: materializes via `New`. -/
def ErrorBuilder.Build (b : ErrorBuilder) : GoErr := New b.id b.detail b.code

/-! ### The `json.Unmarshal` model: lexing

The lexer below plays the role of the scanner of `encoding/json` combined
with its string unquoting: it turns the input into a token list, rejecting
exactly the inputs the Go scanner rejects (`Unmarshal` validates the whole
input before populating anything, so a syntax error anywhere leaves the
target untouched). It is a character-at-a-time state machine, structurally
recursive on the input. String escapes (including `\uXXXX` with surrogate
pairs, with unpaired surrogates becoming U+FFFD exactly as in the Go
decoder) are unescaped on the fly.
-/

/-- JTok is one JSON token. -/
inductive JTok where
  | lbr | rbr | lbk | rbk | col | com
  | jstr (s : String)
  | jnum (s : String)
  | jtru | jfls | jnul
deriving DecidableEq, Repr

/-- LMode is the state of the lexing state machine. -/
inductive LMode where
  | top
  | instr (acc : List Char)
  | esc (acc : List Char)
  | escU (acc : List Char) (ds : List Char)
  | surrB (acc : List Char) (hi : Nat)
  | surrU (acc : List Char) (hi : Nat)
  | surrD (acc : List Char) (hi : Nat) (ds : List Char)
  | kw (rest : List Char) (t : JTok)
  | numNeg (acc : List Char)
  | numZero (acc : List Char)
  | numInt (acc : List Char)
  | numDot (acc : List Char)
  | numFrac (acc : List Char)
  | numE (acc : List Char)
  | numESign (acc : List Char)
  | numExp (acc : List Char)
deriving DecidableEq, Repr

/-- isWs is JSON whitespace (the only characters the Go scanner skips). -/
def isWs (c : Char) : Bool := c = ' ' || c = '\t' || c = '\n' || c = '\r'

/-- isDigitCh is an ASCII decimal digit. -/
def isDigitCh (c : Char) : Bool := '0' ≤ c && c ≤ '9'

/-- isHexCh is an ASCII hex digit (either case), as accepted after `\u`. -/
def isHexCh (c : Char) : Bool :=
  ('0' ≤ c && c ≤ '9') || ('a' ≤ c && c ≤ 'f') || ('A' ≤ c && c ≤ 'F')

/-- hexVal is the value of a hex digit (0 on non-digits, which are guarded). -/
def hexVal (c : Char) : Nat :=
  if '0' ≤ c && c ≤ '9' then c.toNat - 48
  else if 'a' ≤ c && c ≤ 'f' then c.toNat - 87
  else if 'A' ≤ c && c ≤ 'F' then c.toNat - 55
  else 0

/-- hex4 folds four hex digits into a code unit value. -/
def hex4 (ds : List Char) : Nat := ds.foldl (fun n c => n * 16 + hexVal c) 0

/-- repl is U+FFFD, the replacement character used for unpaired surrogates. -/
def repl : Char := Char.ofNat 65533

/-- topStep dispatches one character outside any token. -/
def topStep (c : Char) : Option (LMode × List JTok) :=
  if isWs c then some (.top, [])
  else if c = '\x7b' then some (.top, [.lbr])
  else if c = '\x7d' then some (.top, [.rbr])
  else if c = '[' then some (.top, [.lbk])
  else if c = ']' then some (.top, [.rbk])
  else if c = ':' then some (.top, [.col])
  else if c = ',' then some (.top, [.com])
  else if c = '"' then some (.instr [], [])
  else if c = 't' then some (.kw ['r', 'u', 'e'] .jtru, [])
  else if c = 'f' then some (.kw ['a', 'l', 's', 'e'] .jfls, [])
  else if c = 'n' then some (.kw ['u', 'l', 'l'] .jnul, [])
  else if c = '-' then some (.numNeg ['-'], [])
  else if c = '0' then some (.numZero ['0'], [])
  else if isDigitCh c then some (.numInt [c], [])
  else none

/-- strStep consumes one character inside a string literal: closing quote,
escape opener, or a plain character (unescaped controls are a syntax
error, as in the Go scanner). -/
def strStep (acc : List Char) (c : Char) : Option (LMode × List JTok) :=
  if c = '"' then some (.top, [.jstr (String.mk acc)])
  else if c = '\\' then some (.esc acc, [])
  else if c.toNat < 32 then none
  else some (.instr (acc ++ [c]), [])

/-- escStep consumes the character after a backslash. -/
def escStep (acc : List Char) (c : Char) : Option (LMode × List JTok) :=
  if c = '"' then some (.instr (acc ++ ['"']), [])
  else if c = '\\' then some (.instr (acc ++ ['\\']), [])
  else if c = '/' then some (.instr (acc ++ ['/']), [])
  else if c = 'b' then some (.instr (acc ++ [Char.ofNat 8]), [])
  else if c = 'f' then some (.instr (acc ++ [Char.ofNat 12]), [])
  else if c = 'n' then some (.instr (acc ++ ['\n']), [])
  else if c = 'r' then some (.instr (acc ++ ['\r']), [])
  else if c = 't' then some (.instr (acc ++ ['\t']), [])
  else if c = 'u' then some (.escU acc [], [])
  else none

/-- escUStep collects the four hex digits of a `\uXXXX` escape; a surrogate
value starts the pair lookahead, mirroring the Go unquoting. -/
def escUStep (acc ds : List Char) (c : Char) : Option (LMode × List JTok) :=
  if isHexCh c then
    if ds.length = 3 then
      let n := hex4 (ds ++ [c])
      if 55296 ≤ n ∧ n ≤ 57343 then some (.surrB acc n, [])
      else some (.instr (acc ++ [Char.ofNat n]), [])
    else some (.escU acc (ds ++ [c]), [])
  else none

/-- surrBStep looks for the backslash of a second `\uXXXX` unit after a
surrogate; anything else emits U+FFFD and is reprocessed as string content. -/
def surrBStep (acc : List Char) (hi : Nat) (c : Char) : Option (LMode × List JTok) :=
  if c = '\\' then some (.surrU acc hi, [])
  else strStep (acc ++ [repl]) c

/-- surrUStep looks for the `u` of the second unit; any other character
closes the first escape with U+FFFD and reparses as a plain escape. -/
def surrUStep (acc : List Char) (hi : Nat) (c : Char) : Option (LMode × List JTok) :=
  if c = 'u' then some (.surrD acc hi [], [])
  else escStep (acc ++ [repl]) c

/-- surrDStep collects the hex digits of the second unit and either combines
a valid surrogate pair or degrades to U+FFFD as the Go decoder does. -/
def surrDStep (acc : List Char) (hi : Nat) (ds : List Char) (c : Char) :
    Option (LMode × List JTok) :=
  if isHexCh c then
    if ds.length = 3 then
      let lo := hex4 (ds ++ [c])
      if 55296 ≤ hi ∧ hi < 56320 ∧ 56320 ≤ lo ∧ lo ≤ 57343 then
        some (.instr (acc ++ [Char.ofNat (65536 + (hi - 55296) * 1024 + (lo - 56320))]), [])
      else if 55296 ≤ lo ∧ lo ≤ 57343 then some (.surrB (acc ++ [repl]) lo, [])
      else some (.instr (acc ++ [repl, Char.ofNat lo]), [])
    else some (.surrD acc hi (ds ++ [c]), [])
  else none

/-- kwStep matches the remaining characters of `true`, `false`, `null`. -/
def kwStep (rest : List Char) (t : JTok) (c : Char) : Option (LMode × List JTok) :=
  match rest with
  | [] => none
  | r :: rs =>
    if c = r then
      if rs.isEmpty then some (.top, [t]) else some (.kw rs t, [])
    else none

/-- numNegStep needs the first digit after a minus sign. -/
def numNegStep (acc : List Char) (c : Char) : Option (LMode × List JTok) :=
  if c = '0' then some (.numZero (acc ++ [c]), [])
  else if isDigitCh c then some (.numInt (acc ++ [c]), [])
  else none

/-- numZeroStep handles a leading zero (no further digits allowed). -/
def numZeroStep (acc : List Char) (c : Char) : Option (LMode × List JTok) :=
  if c = '.' then some (.numDot (acc ++ [c]), [])
  else if c = 'e' ∨ c = 'E' then some (.numE (acc ++ [c]), [])
  else if isDigitCh c then none
  else match topStep c with
    | some (m, out) => some (m, .jnum (String.mk acc) :: out)
    | none => none

/-- numIntStep extends the integer part or ends the number. -/
def numIntStep (acc : List Char) (c : Char) : Option (LMode × List JTok) :=
  if isDigitCh c then some (.numInt (acc ++ [c]), [])
  else if c = '.' then some (.numDot (acc ++ [c]), [])
  else if c = 'e' ∨ c = 'E' then some (.numE (acc ++ [c]), [])
  else match topStep c with
    | some (m, out) => some (m, .jnum (String.mk acc) :: out)
    | none => none

/-- numDotStep needs at least one fraction digit. -/
def numDotStep (acc : List Char) (c : Char) : Option (LMode × List JTok) :=
  if isDigitCh c then some (.numFrac (acc ++ [c]), []) else none

/-- numFracStep extends the fraction or ends the number. -/
def numFracStep (acc : List Char) (c : Char) : Option (LMode × List JTok) :=
  if isDigitCh c then some (.numFrac (acc ++ [c]), [])
  else if c = 'e' ∨ c = 'E' then some (.numE (acc ++ [c]), [])
  else match topStep c with
    | some (m, out) => some (m, .jnum (String.mk acc) :: out)
    | none => none

/-- numEStep handles the exponent sign or first digit. -/
def numEStep (acc : List Char) (c : Char) : Option (LMode × List JTok) :=
  if c = '+' ∨ c = '-' then some (.numESign (acc ++ [c]), [])
  else if isDigitCh c then some (.numExp (acc ++ [c]), [])
  else none

/-- numESignStep needs the first exponent digit after the sign. -/
def numESignStep (acc : List Char) (c : Char) : Option (LMode × List JTok) :=
  if isDigitCh c then some (.numExp (acc ++ [c]), []) else none

/-- numExpStep extends the exponent or ends the number. -/
def numExpStep (acc : List Char) (c : Char) : Option (LMode × List JTok) :=
  if isDigitCh c then some (.numExp (acc ++ [c]), [])
  else match topStep c with
    | some (m, out) => some (m, .jnum (String.mk acc) :: out)
    | none => none

/-- lexStep dispatches one input character according to the current mode. -/
def lexStep : LMode → Char → Option (LMode × List JTok)
  | .top, c => topStep c
  | .instr acc, c => strStep acc c
  | .esc acc, c => escStep acc c
  | .escU acc ds, c => escUStep acc ds c
  | .surrB acc hi, c => surrBStep acc hi c
  | .surrU acc hi, c => surrUStep acc hi c
  | .surrD acc hi ds, c => surrDStep acc hi ds c
  | .kw rest t, c => kwStep rest t c
  | .numNeg acc, c => numNegStep acc c
  | .numZero acc, c => numZeroStep acc c
  | .numInt acc, c => numIntStep acc c
  | .numDot acc, c => numDotStep acc c
  | .numFrac acc, c => numFracStep acc c
  | .numE acc, c => numEStep acc c
  | .numExp acc, c => numExpStep acc c
  | .numESign acc, c => numESignStep acc c

/-- lexEnd closes the input: only outside a token, or right after a complete
number, is end of input legal. -/
def lexEnd : LMode → Option (List JTok)
  | .top => some []
  | .numZero acc => some [.jnum (String.mk acc)]
  | .numInt acc => some [.jnum (String.mk acc)]
  | .numFrac acc => some [.jnum (String.mk acc)]
  | .numExp acc => some [.jnum (String.mk acc)]
  | _ => none

/-- lexLoop runs the machine over the input; emitted tokens are accumulated
in reverse order and put right at the end. -/
def lexLoop : List JTok → LMode → List Char → Option (List JTok)
  | rtoks, m, [] =>
    match lexEnd m with
    | some out => some (rtoks.reverse ++ out)
    | none => none
  | rtoks, m, c :: cs =>
    match lexStep m c with
    | some (m', out) => lexLoop (out.reverse ++ rtoks) m' cs
    | none => none

/-- lex tokenizes a whole input string. -/
def lex (s : String) : Option (List JTok) := lexLoop [] .top s.data

/-! ### The `json.Unmarshal` model: decoding into `*Error`

The decoder walks the token list. It returns `none` for a syntax error (the
whole input was rejected by the scanner model, so nothing is populated —
`Unmarshal` validates before decoding) and `some (e, flag)` otherwise,
where `flag` records whether a type error was saved along the way: Go skips
a mismatched field value, keeps decoding the remaining fields, and returns
the saved error at the end, so fields other than the offending one are
still populated. Unknown object keys are ignored, field names match
case-insensitively, and `null` leaves a field unchanged.
-/

/-- lowerA lower-cases an ASCII letter; `keyFold` models the case-insensitive
field-name matching of `encoding/json` (the four field names here are ASCII). -/
def lowerA (c : Char) : Char :=
  if 'A' ≤ c && c ≤ 'Z' then Char.ofNat (c.toNat + 32) else c

/-- keyFold compares an object key against a struct field name, ASCII
case-insensitively. -/
def keyFold (a b : String) : Bool := a.data.map lowerA == b.data.map lowerA

/-- digitsVal folds decimal digits into a natural number, exactly as
`parseI32` consumes what `natDigits` produces. -/
def digitsVal (ds : List Char) : Nat := ds.foldl (fun n c => n * 10 + (c.toNat - 48)) 0

/-- parseI32 models `strconv.ParseInt` on a JSON number literal followed by
the `int32` overflow check: only an optionally signed plain decimal integer
within the `int32` range is accepted; fractions, exponents and overflow are
a type error. -/
def parseI32 (s : String) : Option Int :=
  match s.data with
  | '-' :: ds =>
    if ds ≠ [] ∧ ds.all isDigitCh then
      let v : Int := -(digitsVal ds : Int)
      if -2147483648 ≤ v then some v else none
    else none
  | ds =>
    if ds ≠ [] ∧ ds.all isDigitCh then
      let v : Int := (digitsVal ds : Int)
      if v ≤ 2147483647 then some v else none
    else none

/-- isKnownKey tests whether a key names one of the four struct fields. -/
def isKnownKey (k : String) : Bool :=
  keyFold k "id" || keyFold k "code" || keyFold k "detail" || keyFold k "status"

/-- applyStr stores a JSON string value under a key: the three string fields
accept it, `code` records a type error, unknown keys are dropped. -/
def applyStr (e : Error) (k v : String) : Error × Bool :=
  if keyFold k "id" then ({ e with Id := v }, false)
  else if keyFold k "code" then (e, true)
  else if keyFold k "detail" then ({ e with Detail := v }, false)
  else if keyFold k "status" then ({ e with Status := v }, false)
  else (e, false)

/-- applyNum stores a JSON number value under a key: only `code` accepts it
(when it parses as an `int32`), the string fields record a type error. -/
def applyNum (e : Error) (k raw : String) : Error × Bool :=
  if keyFold k "code" then
    match parseI32 raw with
    | some v => ({ e with Code := v }, false)
    | none => (e, true)
  else (e, isKnownKey k)

mutual

/-- skipVal consumes one complete JSON value from the token list (used for
unknown or mismatched fields); `fuel` dominates the nesting depth. -/
def skipVal : Nat → List JTok → Option (List JTok)
  | 0, _ => none
  | fuel + 1, ts =>
    match ts with
    | .jstr _ :: r => some r
    | .jnum _ :: r => some r
    | .jtru :: r => some r
    | .jfls :: r => some r
    | .jnul :: r => some r
    | .lbk :: .rbk :: r => some r
    | .lbk :: r => skipArr fuel r
    | .lbr :: .rbr :: r => some r
    | .lbr :: r => skipObj fuel r
    | _ => none

/-- skipArr consumes the elements of a non-empty array after `[`. -/
def skipArr : Nat → List JTok → Option (List JTok)
  | 0, _ => none
  | fuel + 1, ts =>
    match skipVal fuel ts with
    | some (.rbk :: r) => some r
    | some (.com :: r) => skipArr fuel r
    | _ => none

/-- skipObj consumes the members of a non-empty object after ` `. -/
def skipObj : Nat → List JTok → Option (List JTok)
  | 0, _ => none
  | fuel + 1, ts =>
    match ts with
    | .jstr _ :: .col :: r =>
      match skipVal fuel r with
      | some (.rbr :: r2) => some r2
      | some (.com :: r2) => skipObj fuel r2
      | _ => none
    | _ => none

end

/-- parseOne decodes the value of the field named `k`: strings and numbers
through `applyStr`/`applyNum`, `true`/`false` as a type error on known keys,
`null` as a no-op, nested composites skipped (a type error on known keys). -/
def parseOne (fuel : Nat) (e : Error) (k : String) (vts : List JTok) :
    Option (Error × Bool × List JTok) :=
  match vts with
  | .jstr v :: r =>
    match applyStr e k v with
    | (e', b) => some (e', b, r)
  | .jnum raw :: r =>
    match applyNum e k raw with
    | (e', b) => some (e', b, r)
  | .jtru :: r => some (e, isKnownKey k, r)
  | .jfls :: r => some (e, isKnownKey k, r)
  | .jnul :: r => some (e, false, r)
  | .lbr :: _ =>
    match skipVal fuel vts with
    | some r => some (e, isKnownKey k, r)
    | none => none
  | .lbk :: _ =>
    match skipVal fuel vts with
    | some r => some (e, isKnownKey k, r)
    | none => none
  | _ => none

/-- parseFields decodes the members of a non-empty object after `{`,
accumulating the struct state and the saved-type-error flag. -/
def parseFields : Nat → Error → Bool → List JTok → Option (Error × Bool × List JTok)
  | 0, _, _, _ => none
  | fuel + 1, e, fl, ts =>
    match ts with
    | .jstr k :: .col :: vts =>
      match parseOne fuel e k vts with
      | some (e', b, rest) =>
        match rest with
        | .rbr :: r2 => some (e', fl || b, r2)
        | .com :: .jstr k2 :: r3 => parseFields fuel e' (fl || b) (.jstr k2 :: r3)
        | _ => none
      | none => none
    | _ => none

/-- zeroError is `new(Error)`: all fields at their zero values. -/
def zeroError : Error := { Id := "", Code := 0, Detail := "", Status := "" }

/-- decodeToks decodes a complete token stream into the struct state plus
type-error flag; `none` is a syntax error. A top-level `null` succeeds and
leaves the struct untouched; any other non-object value is one type error. -/
def decodeToks (ts : List JTok) : Option (Error × Bool) :=
  match ts with
  | [.jnul] => some (zeroError, false)
  | .lbr :: .rbr :: r => if r = [] then some (zeroError, false) else none
  | .lbr :: r =>
    match parseFields (2 * ts.length + 4) zeroError false r with
    | some (e, fl, []) => some (e, fl)
    | _ => none
  | _ =>
    match skipVal (2 * ts.length + 4) ts with
    | some [] => some (zeroError, true)
    | _ => none

/-- decode is the composed `json.Unmarshal` model on a string. -/
def decode (s : String) : Option (Error × Bool) :=
  match lex s with
  | some ts => decodeToks ts
  | none => none

/-- Parse mirrors `Parse(err string) *Error`: decode, and on any decode
error overwrite `Detail` with the raw input (whatever fields the failed
decode populated are kept, exactly as in Go). -/
def Parse (err : String) : Error :=
  match decode err with
  | some (e, false) => e
  | some (e, true) => { e with Detail := err }
  | none => { zeroError with Detail := err }

/-! ## Theorems -/

/-- beqString_symm: string boolean equality is symmetric in its arguments. -/
theorem beqString_symm (x y : String) : (x == y) = (y == x) := by
  by_cases h : x = y
  · subst h; rfl
  · simp [beq_eq_false_iff_ne, h, Ne.symm h]

/-- C1: `Is` returns false whenever either side is nil (including both); on
two `*Error` values it is exactly identity-field equality, ignoring code,
detail and status; in particular two `NotFound` errors with different
details compare equal. -/
theorem is_nil_false_and_identity_only :
    (∀ t, Is .nil t = false) ∧ (∀ a, Is a .nil = false) ∧
    (∀ a b : Error, Is (.e a) (.e b) = (a.Id == b.Id)) ∧
    Is (NotFound ["a"]) (NotFound ["b"]) = true := by
  refine ⟨fun t => ?_, fun a => ?_, fun a b => rfl, by decide⟩
  · cases t <;> rfl
  · cases a <;> rfl

/-- C9: `Is` is symmetric in its two arguments over all interface values:
nil, `*Error` and other errors alike. -/
theorem is_symm (a b : GoErr) : Is a b = Is b a := by
  cases a <;> cases b <;> simp only [Is] <;> apply beqString_symm

/-- C4: `Wrap` keeps identity, code and status and prefixes the message to
the old detail with `: `; `WithDetail` keeps identity, code and status and
replaces the detail outright. Both build a fresh value; the Go code never
assigns to the fields of the original, which this pure embedding reflects. -/
theorem wrap_withDetail_frame (e : Error) (m d : String) :
    Wrap (.e e) m
      = .e { Id := e.Id, Code := e.Code, Detail := m ++ ": " ++ e.Detail,
             Status := e.Status } ∧
    WithDetail (.e e) d
      = .e { Id := e.Id, Code := e.Code, Detail := d, Status := e.Status } :=
  ⟨rfl, rfl⟩

/-- C5 counterexample: with two operands the convenience constructors do not
concatenate the printed arguments: `BadRequest("a", "b")` has detail
`a%!(EXTRA string=b)`, not `ab`. -/
theorem constructor_detail_not_concat :
    BadRequest ["a", "b"]
      = .e { Id := "400", Code := 400,
             Detail := "a%!(EXTRA string=b)", Status := "Bad Request" } ∧
    "a%!(EXTRA string=b)" ≠ "a" ++ "b" := by
  constructor <;> decide

/-- C5 (amended): every convenience constructor formats its operand list
with `fmt.Sprintf("%s", a...)`: one string operand is taken verbatim, zero
operands give `%!s(MISSING)`, and additional operands are reported in an
`%!(EXTRA ...)` suffix after the first, rather than being concatenated. -/
theorem constructor_detail_sprintf :
    (∀ a, BadRequest a
      = .e { Id := "400", Code := 400, Detail := sprintfS a,
             Status := statusText 400 }) ∧
    (∀ a, Unauthorized a
      = .e { Id := "401", Code := 401, Detail := sprintfS a,
             Status := statusText 401 }) ∧
    (∀ a, Forbidden a
      = .e { Id := "403", Code := 403, Detail := sprintfS a,
             Status := statusText 403 }) ∧
    (∀ a, NotFound a
      = .e { Id := "404", Code := 404, Detail := sprintfS a,
             Status := statusText 404 }) ∧
    (∀ a, MethodNotAllowed a
      = .e { Id := "405", Code := 405, Detail := sprintfS a,
             Status := statusText 405 }) ∧
    (∀ a, Timeout a
      = .e { Id := "408", Code := 408, Detail := sprintfS a,
             Status := statusText 408 }) ∧
    (∀ a, Conflict a
      = .e { Id := "409", Code := 409, Detail := sprintfS a,
             Status := statusText 409 }) ∧
    (∀ a, InternalServerError a
      = .e { Id := "500", Code := 500, Detail := sprintfS a,
             Status := statusText 500 }) ∧
    (∀ a, ServiceUnavailable a
      = .e { Id := "503", Code := 503, Detail := sprintfS a,
             Status := statusText 503 }) ∧
    (∀ a, GatewayTimeout a
      = .e { Id := "504", Code := 504, Detail := sprintfS a,
             Status := statusText 504 }) ∧
    (∀ s, sprintfS [s] = s) ∧ sprintfS [] = "%!s(MISSING)" ∧
    (∀ x y, sprintfS [x, y] = x ++ "%!(EXTRA string=" ++ y ++ ")") := by
  refine ⟨fun a => rfl, fun a => rfl, fun a => rfl, fun a => rfl, fun a => rfl,
    fun a => rfl, fun a => rfl, fun a => rfl, fun a => rfl, fun a => rfl,
    fun s => ?_, rfl, fun x y => ?_⟩
  · simp [sprintfS, sprintfExtra]
  · simp only [sprintfS, sprintfExtra, String.intercalate, List.map_cons, List.map_nil]
    have h : String.intercalate.go ("string=" ++ y) ", " [] = "string=" ++ y := rfl
    rw [h]
    apply String.ext
    simp [String.data_append]

/-- C6 counterexample: `IsBadRequest(NotFound("x"))` is not false — the 404
code lies in `[400, 500)`, so the predicate accepts it. -/
theorem isBadRequest_notFound_true : ¬ IsBadRequest (NotFound ["x"]) = false := by
  decide

/-- C6 (amended): `IsBadRequest` is exactly the `[400, 500)` code range test
on `*Error` values and `IsServerError` the `[500, 600)` one; consequently
`BadRequest("x")` and also `NotFound("x")` (code 404) satisfy
`IsBadRequest`, `InternalServerError("x")` does not, and
`InternalServerError("x")` satisfies `IsServerError`. -/
theorem classification_ranges :
    (∀ e : Error, IsBadRequest (.e e)
      = (decide (400 ≤ e.Code) && decide (e.Code < 500))) ∧
    (∀ e : Error, IsServerError (.e e)
      = (decide (500 ≤ e.Code) && decide (e.Code < 600))) ∧
    IsBadRequest (BadRequest ["x"]) = true ∧
    IsBadRequest (NotFound ["x"]) = true ∧
    IsBadRequest (InternalServerError ["x"]) = false ∧
    IsServerError (InternalServerError ["x"]) = true :=
  ⟨fun e => rfl, fun e => rfl, by decide, by decide, by decide, by decide⟩

/-- C7: `IsNotFound` accepts every error built by the 404 constructor,
whatever the detail operands, because the identity comparison against the
`ErrCollateralNotFound` sentinel only looks at the shared identity `404`;
`IsAlreadyExists` likewise accepts every 409 `Conflict` error. -/
theorem isNotFound_isAlreadyExists_constructor (a : List String) :
    IsNotFound (NotFound a) = true ∧ IsAlreadyExists (Conflict a) = true :=
  ⟨rfl, rfl⟩

/-- C8: the chained builder produces identity `X`, code 418, detail
`teapot`, and the table text for 418 as status; in general `Build`
materializes through `New` from whatever fields the builder holds. -/
theorem builder_build :
    (((NewBuilder.WithID "X").WithCode 418).WithDetail "teapot").Build
      = New "X" "teapot" 418 ∧
    New "X" "teapot" 418
      = .e { Id := "X", Code := 418, Detail := "teapot", Status := "I\u0027m a teapot" } ∧
    statusText 418 = "I\u0027m a teapot" ∧
    (∀ b : ErrorBuilder, b.Build = New b.id b.detail b.code) :=
  ⟨rfl, by decide, by decide, fun b => rfl⟩

/-- C10: on a nil error the accessors fall back without failing, to the same
values as for any other non-`*Error` input: 500 and `UNKNOWN_ERROR`. -/
theorem accessors_nil_fallback :
    GetHTTPStatus .nil = 500 ∧ GetErrorID .nil = "UNKNOWN_ERROR" ∧
    (∀ m, GetHTTPStatus (.generic m) = 500 ∧ GetErrorID (.generic m) = "UNKNOWN_ERROR") :=
  ⟨rfl, rfl, fun m => ⟨rfl, rfl⟩⟩

end GoErrors

namespace GoErrors

/-- hexVal_hexDigitChar: the lowercase hex digits emitted by the encoder are
hex digits for the lexer and evaluate back to their value. -/
theorem hexVal_hexDigitChar : ∀ n, n < 16 →
    (isHexCh (hexDigitChar n) = true ∧ hexVal (hexDigitChar n) = n) := by decide

/-- lexLoop_escapeChar: lexing one encoder-escaped character inside a string
literal appends exactly that character to the accumulator. -/
theorem lexLoop_escapeChar (c : Char) (rtoks : List JTok) (acc X : List Char) :
    lexLoop rtoks (.instr acc) (escapeChar c ++ X) = lexLoop rtoks (.instr (acc ++ [c])) X := by
  unfold escapeChar
  split_ifs with h1 h2 h3 h4 h5 h6 h7 h8
  · subst h1; rfl
  · subst h2; rfl
  · subst h3; rfl
  · subst h4; rfl
  · subst h5; rfl
  · rcases h6 with h | h | h <;> subst h <;> rfl
  · -- control characters, c.toNat < 32
    have e1 : c.toNat / 4096 % 16 = 0 := by omega
    have e2 : c.toNat / 256 % 16 = 0 := by omega
    have hx1 := hexVal_hexDigitChar (c.toNat / 16 % 16) (Nat.mod_lt _ (by omega))
    have hx2 := hexVal_hexDigitChar (c.toNat % 16) (Nat.mod_lt _ (by omega))
    simp only [uescape, e1, e2, List.cons_append, List.nil_append]
    have hd0 : hexDigitChar 0 = '0' := rfl
    rw [hd0]
    have step : lexLoop rtoks (.instr acc)
        ('\\' :: 'u' :: '0' :: '0' :: hexDigitChar (c.toNat / 16 % 16) ::
          hexDigitChar (c.toNat % 16) :: X)
        = lexLoop rtoks (.escU acc ['0', '0'])
            (hexDigitChar (c.toNat / 16 % 16) :: hexDigitChar (c.toNat % 16) :: X) := rfl
    rw [step]
    have s1 : lexStep (.escU acc ['0', '0']) (hexDigitChar (c.toNat / 16 % 16))
        = some (.escU acc ['0', '0', hexDigitChar (c.toNat / 16 % 16)], []) := by
      simp [lexStep, escUStep, hx1.1]
    have hv : hex4 ['0', '0', hexDigitChar (c.toNat / 16 % 16), hexDigitChar (c.toNat % 16)]
        = c.toNat := by
      simp [hex4, hx1.2, hx2.2, show hexVal '0' = 0 from rfl]
      omega
    have hns : ¬ (55296 ≤ c.toNat ∧ c.toNat ≤ 57343) := by omega
    have s2 : lexStep (.escU acc ['0', '0', hexDigitChar (c.toNat / 16 % 16)])
        (hexDigitChar (c.toNat % 16))
        = some (.instr (acc ++ [Char.ofNat c.toNat]), []) := by
      simp [lexStep, escUStep, hx2.1, hv, hns, Char.ofNat_toNat]
    rw [lexLoop, s1]
    simp only [List.reverse_nil, List.nil_append]
    rw [lexLoop, s2]
    simp only [List.reverse_nil, List.nil_append, Char.ofNat_toNat]
  · -- U+2028 / U+2029
    rcases h8 with h | h
    · have hc : c = Char.ofNat 8232 := by rw [← h, Char.ofNat_toNat]
      rw [hc]; rfl
    · have hc : c = Char.ofNat 8233 := by rw [← h, Char.ofNat_toNat]
      rw [hc]; rfl
  · -- plain character
    have hq : ¬ c = '"' := h1
    have hb : ¬ c = '\\' := h2
    rw [List.cons_append, List.nil_append, lexLoop]
    simp only [lexStep, strStep, if_neg hq, if_neg hb, if_neg h7]
    simp

end GoErrors

namespace GoErrors

/-- lexLoop_escChars: lexing an encoder-escaped character run appends the
whole run to the string accumulator. -/
theorem lexLoop_escChars (s : List Char) : ∀ (rtoks : List JTok) (acc rest : List Char),
    lexLoop rtoks (.instr acc) (escChars s ++ rest) = lexLoop rtoks (.instr (acc ++ s)) rest := by
  induction s with
  | nil => intro rtoks acc rest; simp [escChars]
  | cons c cs ih =>
    intro rtoks acc rest
    rw [escChars, List.append_assoc, lexLoop_escapeChar, ih]
    simp

/-- digitChar_facts: decimal digit characters are digits for the lexer,
evaluate back to their value, and are not a minus sign. -/
theorem digitChar_facts : ∀ n, n < 10 →
    (isDigitCh (digitChar n) = true ∧ (digitChar n).toNat - 48 = n ∧ digitChar n ≠ '-') := by
  decide

/-- natDigitsAux_congr: the rendering fuel is irrelevant once it exceeds the
number. -/
theorem natDigitsAux_congr : ∀ f1 f2 n : Nat, n < f1 → n < f2 →
    natDigitsAux f1 n = natDigitsAux f2 n := by
  intro f1
  induction f1 with
  | zero => omega
  | succ f1 ih =>
    intro f2 n h1 h2
    cases f2 with
    | zero => omega
    | succ f2 =>
      simp only [natDigitsAux]
      by_cases h : n < 10
      · simp [h]
      · have hd : n / 10 < n := Nat.div_lt_self (by omega) (by omega)
        simp only [h, if_false]
        rw [ih f2 (n / 10) (by omega) (by omega)]

/-- natDigits_small: numbers below ten render as a single digit. -/
theorem natDigits_small (n : Nat) (h : n < 10) : natDigits n = [digitChar n] := by
  unfold natDigits
  simp only [natDigitsAux]
  rw [if_pos h]

/-- natDigits_step: the decimal rendering peels the last digit off. -/
theorem natDigits_step (n : Nat) (h : 10 ≤ n) :
    natDigits n = natDigits (n / 10) ++ [digitChar (n % 10)] := by
  have hd : n / 10 < n := Nat.div_lt_self (by omega) (by omega)
  have h1 : natDigits n = natDigitsAux n (n / 10) ++ [digitChar (n % 10)] := by
    unfold natDigits
    rw [natDigitsAux]
    rw [if_neg (by omega)]
  rw [h1, natDigitsAux_congr n (n / 10 + 1) (n / 10) (by omega) (by omega)]
  rfl

/-- natDigits_all: every character of a decimal rendering is a digit. -/
theorem natDigits_all (n : Nat) : (natDigits n).all isDigitCh = true := by
  induction n using Nat.strong_induction_on with
  | _ n ih =>
    by_cases h : n < 10
    · rw [natDigits_small n h]
      simp [(digitChar_facts n h).1]
    · rw [natDigits_step n (by omega)]
      rw [List.all_append]
      have h1 := ih (n / 10) (Nat.div_lt_self (by omega) (by omega))
      have h2 := (digitChar_facts (n % 10) (Nat.mod_lt _ (by omega))).1
      simp [h1, h2]

/-- natDigits_val: evaluating the decimal digits recovers the number. -/
theorem natDigits_val (n : Nat) : digitsVal (natDigits n) = n := by
  induction n using Nat.strong_induction_on with
  | _ n ih =>
    by_cases h : n < 10
    · rw [natDigits_small n h]
      have := (digitChar_facts n h).2.1
      simp [digitsVal]
      omega
    · rw [natDigits_step n (by omega)]
      have h1 := ih (n / 10) (Nat.div_lt_self (by omega) (by omega))
      have h2 := (digitChar_facts (n % 10) (Nat.mod_lt _ (by omega))).2.1
      simp [digitsVal, List.foldl_append] at h1 h2 ⊢
      rw [h1, h2]
      omega

/-- natDigits_head: a positive number renders with a nonzero leading digit,
followed by digits. -/
theorem natDigits_head (n : Nat) (h : 1 ≤ n) :
    ∃ k ds, 1 ≤ k ∧ k ≤ 9 ∧ natDigits n = digitChar k :: ds ∧ ds.all isDigitCh = true := by
  induction n using Nat.strong_induction_on with
  | _ n ih =>
    by_cases hlt : n < 10
    · exact ⟨n, [], by omega, by omega, natDigits_small n hlt, rfl⟩
    · obtain ⟨k, ds, hk1, hk9, heq, hall⟩ := ih (n / 10) (Nat.div_lt_self (by omega) (by omega))
        (by omega)
    
      refine ⟨k, ds ++ [digitChar (n % 10)], hk1, hk9, ?_, ?_⟩
      · rw [natDigits_step n (by omega), heq]
        simp
      · rw [List.all_append]
        have h2 := (digitChar_facts (n % 10) (Nat.mod_lt _ (by omega))).1
        simp [hall, h2]

end GoErrors

namespace GoErrors

/-- lexLoop_digits: the machine consumes a digit run in integer state and
emits the number token at the comma. -/
theorem lexLoop_digits (ds : List Char) : ∀ (_ : ds.all isDigitCh = true)
    (rtoks : List JTok) (acc rest : List Char),
    lexLoop rtoks (.numInt acc) (ds ++ ',' :: rest)
      = lexLoop (.com :: .jnum (String.mk (acc ++ ds)) :: rtoks) .top rest := by
  induction ds with
  | nil =>
    intro _ rtoks acc rest
    simp only [List.nil_append, List.append_nil]
    rfl
  | cons d ds ih =>
    intro h rtoks acc rest
    rw [List.all_cons, Bool.and_eq_true] at h
    have hd : isDigitCh d = true := h.1
    have hds : ds.all isDigitCh = true := h.2
    have s1 : lexStep (.numInt acc) d = some (.numInt (acc ++ [d]), []) := by
      simp [lexStep, numIntStep, hd]
    rw [List.cons_append, lexLoop, s1]
    simp only [List.reverse_nil, List.nil_append]
    rw [ih hds]
    simp

/-- topStep_digitChar: a nonzero digit starts integer lexing. -/
theorem topStep_digitChar (k : Nat) (h1 : 1 ≤ k) (h9 : k ≤ 9) :
    topStep (digitChar k) = some (.numInt [digitChar k], []) := by
  interval_cases k <;> rfl

/-- numNegStep_digitChar: a nonzero digit after a minus sign continues into
integer lexing. -/
theorem numNegStep_digitChar (k : Nat) (h1 : 1 ≤ k) (h9 : k ≤ 9) (acc : List Char) :
    numNegStep acc (digitChar k) = some (.numInt (acc ++ [digitChar k]), []) := by
  interval_cases k <;> rfl

/-- lexLoop_int: lexing the decimal rendering of an integer followed by a
comma emits exactly the number token and the comma. -/
theorem lexLoop_int (i : Int) (rtoks : List JTok) (rest : List Char) :
    lexLoop rtoks .top (intChars i ++ ',' :: rest)
      = lexLoop (.com :: .jnum (String.mk (intChars i)) :: rtoks) .top rest := by
  by_cases hneg : i < 0
  · simp only [intChars, if_pos hneg]
    have hm : 1 ≤ (-i).toNat := by omega
    obtain ⟨k, ds, hk1, hk9, heq, hall⟩ := natDigits_head _ hm
    rw [heq]
    have s1 : lexStep (.numNeg ['-']) (digitChar k) = some (.numInt ['-', digitChar k], []) :=
      numNegStep_digitChar k hk1 hk9 ['-']
    rw [List.cons_append, List.cons_append, lexLoop, show lexStep .top '-'
      = some (.numNeg ['-'], []) from rfl]
    simp only [List.reverse_nil, List.nil_append]
    rw [lexLoop, s1]
    simp only [List.reverse_nil, List.nil_append]
    rw [lexLoop_digits ds hall]
    simp
  · simp only [intChars, if_neg hneg]
    by_cases hz : i.toNat = 0
    · rw [hz, show natDigits 0 = ['0'] from rfl]
      rfl
    · obtain ⟨k, ds, hk1, hk9, heq, hall⟩ := natDigits_head i.toNat (by omega)
      have s2 : lexStep .top (digitChar k) = some (.numInt [digitChar k], []) :=
        topStep_digitChar k hk1 hk9
      rw [heq, List.cons_append, lexLoop, s2]
      simp only [List.reverse_nil, List.nil_append]
      rw [lexLoop_digits ds hall]
      simp

end GoErrors

namespace GoErrors

/-- seg_open: lexing the opening brace and the id key. -/
theorem seg_open (rtoks : List JTok) (Y : List Char) :
    lexLoop rtoks .top ('\x7b' :: '"' :: 'i' :: 'd' :: '"' :: ':' :: '"' :: Y)
      = lexLoop (.col :: .jstr "id" :: .lbr :: rtoks) (.instr []) Y := rfl

/-- seg_code: lexing from the quote closing the id value through the colon
after the code key. -/
theorem seg_code (rtoks : List JTok) (acc Y : List Char) :
    lexLoop rtoks (.instr acc)
        ('"' :: ',' :: '"' :: 'c' :: 'o' :: 'd' :: 'e' :: '"' :: ':' :: Y)
      = lexLoop (.col :: .jstr "code" :: .com :: .jstr (String.mk acc) :: rtoks) .top Y := rfl

/-- seg_detail: lexing the detail key after the number-terminating comma. -/
theorem seg_detail (rtoks : List JTok) (Y : List Char) :
    lexLoop rtoks .top
        ('"' :: 'd' :: 'e' :: 't' :: 'a' :: 'i' :: 'l' :: '"' :: ':' :: '"' :: Y)
      = lexLoop (.col :: .jstr "detail" :: rtoks) (.instr []) Y := rfl

/-- seg_status: lexing from the quote closing the detail value through the
quote opening the status value. -/
theorem seg_status (rtoks : List JTok) (acc Y : List Char) :
    lexLoop rtoks (.instr acc)
        ('"' :: ',' :: '"' :: 's' :: 't' :: 'a' :: 't' :: 'u' :: 's' :: '"' :: ':' :: '"' :: Y)
      = lexLoop (.col :: .jstr "status" :: .com :: .jstr (String.mk acc) :: rtoks)
          (.instr []) Y := rfl

theorem lex_encode (e : Error) :
    lex (encodeError e)
      = some [.lbr, .jstr "id", .col, .jstr e.Id, .com, .jstr "code", .col,
          .jnum (String.mk (intChars e.Code)), .com, .jstr "detail", .col, .jstr e.Detail,
          .com, .jstr "status", .col, .jstr e.Status, .rbr] := by
  show lexLoop [] .top (encodeChars e) = _
  simp only [encodeChars, List.cons_append, List.nil_append, List.append_assoc]
  rw [seg_open, lexLoop_escChars, List.nil_append]
  rw [seg_code, lexLoop_int, seg_detail, lexLoop_escChars, List.nil_append]
  rw [seg_status, lexLoop_escChars, List.nil_append]
  rfl

end GoErrors

namespace GoErrors

/-- natDigits_ne_nil: a decimal rendering is never empty. -/
theorem natDigits_ne_nil (n : Nat) : natDigits n ≠ [] := by
  by_cases h : n < 10
  · rw [natDigits_small n h]
    simp
  · rw [natDigits_step n (by omega)]
    simp

/-- parseI32_intChars: the int32 number decoder inverts the decimal encoder
on the int32 range. -/
theorem parseI32_intChars (i : Int) (hlo : -2147483648 ≤ i) (hhi : i ≤ 2147483647) :
    parseI32 (String.mk (intChars i)) = some i := by
  by_cases hneg : i < 0
  · have hsh : intChars i = '-' :: natDigits (-i).toNat := by
      simp [intChars, hneg]
    rw [hsh]
    have hred : parseI32 (String.mk ('-' :: natDigits (-i).toNat))
        = (if natDigits (-i).toNat ≠ [] ∧ (natDigits (-i).toNat).all isDigitCh then
            (if -2147483648 ≤ -((digitsVal (natDigits (-i).toNat) : Nat) : Int) then
              some (-((digitsVal (natDigits (-i).toNat) : Nat) : Int)) else none)
          else none) := rfl
    rw [hred, if_pos ⟨natDigits_ne_nil _, natDigits_all _⟩, natDigits_val]
    have hi : (((-i).toNat : Nat) : Int) = -i := Int.toNat_of_nonneg (by omega)
    rw [hi]
    rw [if_pos (by omega)]
    congr 1
    omega
  · have hn : (i.toNat : Int) = i := Int.toNat_of_nonneg (by omega)
    by_cases hz : i.toNat = 0
    · have h0 : i = 0 := by omega
      rw [h0]
      decide
    · obtain ⟨k, ds, hk1, hk9, heq, _⟩ := natDigits_head i.toNat (by omega)
      have hsh : intChars i = digitChar k :: ds := by
        rw [intChars, if_neg hneg, heq]
      rw [hsh]
      have hda : (digitChar k :: ds).all isDigitCh = true := by
        rw [← heq]
        exact natDigits_all _
      have hdk : digitChar k ≠ '-' := (digitChar_facts k (by omega)).2.2
      rw [parseI32]
      split
      · rename_i ds2 heq2
        have h3 : digitChar k :: ds = '-' :: ds2 := heq2
        injection h3 with h4 h5
        exact absurd h4 hdk
      · rename_i hne
        rw [if_pos ⟨by simp, hda⟩]
        have hv : digitsVal (digitChar k :: ds) = i.toNat := by
          rw [← heq]
          exact natDigits_val _
        rw [hv, hn]
        rw [if_pos (by omega)]

end GoErrors

namespace GoErrors

/-- keyFold_id_id: concrete field-name comparison fact. -/
theorem keyFold_id_id : keyFold "id" "id" = true := by decide
/-- keyFold_code_code: concrete field-name comparison fact. -/
theorem keyFold_code_code : keyFold "code" "code" = true := by decide
/-- keyFold_detail_id: concrete field-name comparison fact. -/
theorem keyFold_detail_id : keyFold "detail" "id" = false := by decide
/-- keyFold_detail_code: concrete field-name comparison fact. -/
theorem keyFold_detail_code : keyFold "detail" "code" = false := by decide
/-- keyFold_detail_detail: concrete field-name comparison fact. -/
theorem keyFold_detail_detail : keyFold "detail" "detail" = true := by decide
/-- keyFold_status_id: concrete field-name comparison fact. -/
theorem keyFold_status_id : keyFold "status" "id" = false := by decide
/-- keyFold_status_code: concrete field-name comparison fact. -/
theorem keyFold_status_code : keyFold "status" "code" = false := by decide
/-- keyFold_status_detail: concrete field-name comparison fact. -/
theorem keyFold_status_detail : keyFold "status" "detail" = false := by decide
/-- keyFold_status_status: concrete field-name comparison fact. -/
theorem keyFold_status_status : keyFold "status" "status" = true := by decide

/-- decodeToks_fields: decoding the token form of the encoder output
populates the four fields and reports no error. -/
theorem decodeToks_fields (sid sd st raw : String) (i : Int)
    (hp : parseI32 raw = some i) :
    decodeToks [.lbr, .jstr "id", .col, .jstr sid, .com, .jstr "code", .col,
      .jnum raw, .com, .jstr "detail", .col, .jstr sd, .com,
      .jstr "status", .col, .jstr st, .rbr]
      = some ({ Id := sid, Code := i, Detail := sd, Status := st }, false) := by
  simp only [decodeToks, List.length_cons, List.length_nil]
  norm_num
  simp only [parseFields, parseOne, applyStr, applyNum, hp,
    keyFold_id_id, keyFold_code_code, keyFold_detail_id, keyFold_detail_code,
    keyFold_detail_detail, keyFold_status_id, keyFold_status_code,
    keyFold_status_detail, keyFold_status_status, if_true, if_false,
    Bool.false_or, Bool.or_false]
  simp [zeroError]

end GoErrors

namespace GoErrors

/-- C2: for every identity, detail and int32 code, parsing the JSON text
form of `New(id, detail, c)` gives back an Error with identical identity,
code, detail and status (the serialization round-trip law). -/
theorem parse_encode_roundtrip (id detail : String) (c : Int)
    (hlo : -2147483648 ≤ c) (hhi : c ≤ 2147483647) :
    Parse (errText (New id detail c)) = newError id detail c := by
  have hl := lex_encode (newError id detail c)
  simp only [newError] at hl
  have hp := parseI32_intChars c hlo hhi
  have hd := decodeToks_fields id detail (statusText c) (String.mk (intChars c)) c hp
  show Parse (encodeError (newError id detail c)) = newError id detail c
  simp only [Parse, decode, newError]
  rw [hl]
  dsimp only
  rw [hd]

/-- parse_encode_roundtrip_witness: the round-trip law instantiated at the
concrete input `New("a", "b", 404)`, with the range hypotheses discharged. -/
theorem parse_encode_roundtrip_witness :
    (-2147483648 ≤ (404 : Int) ∧ (404 : Int) ≤ 2147483647) ∧
    Parse (errText (New "a" "b" 404)) = newError "a" "b" 404 :=
  ⟨⟨by decide, by decide⟩, parse_encode_roundtrip "a" "b" 404 (by decide) (by decide)⟩

/-- C3 (amended): on any decode failure `Parse` stores the raw input as the
detail; when the failure is a syntax error (the input is not valid JSON, so
the decoder returns nothing) the other fields stay at their zero values;
when the input is valid JSON but of the wrong shape, the fields that did
decode are kept and only the detail is overwritten. -/
theorem parse_failure_detail_raw (s : String) :
    (decode s = none → Parse s = { Id := "", Code := 0, Detail := s, Status := "" }) ∧
    (∀ e, decode s = some (e, true) → Parse s = { e with Detail := s }) := by
  constructor
  · intro h
    simp [Parse, h, zeroError]
  · intro e h
    simp [Parse, h]

/-- parse_failure_detail_raw_witness: `Parse("not valid json")` hits the
syntax-error branch and yields the zero Error with the raw text as detail
and code 0. -/
theorem parse_failure_detail_raw_witness :
    decode "not valid json" = none ∧
    Parse "not valid json" = { Id := "", Code := 0, Detail := "not valid json", Status := "" } :=
  ⟨by decide, (parse_failure_detail_raw "not valid json").1 (by decide)⟩

/-- C3 counterexample: a valid-JSON input whose `code` field is a string
fails to decode, yet `Parse` keeps the already-decoded identity `x`, so the
claim that identity is always zero on decode failure is false. -/
theorem parse_failure_populates_fields :
    decode "\x7b\"id\":\"x\",\"code\":\"y\"\x7d"
      = some ({ Id := "x", Code := 0, Detail := "", Status := "" }, true) ∧
    (Parse "\x7b\"id\":\"x\",\"code\":\"y\"\x7d").Id = "x" ∧ ("x" : String) ≠ "" := by
  refine ⟨by decide, by decide, by decide⟩

end GoErrors
